import Mathlib

/-!
Verification of the `linked` CLI's response-normalization and
resilient-request core, as a shallow embedding in Lean.

The embedding models JavaScript values (`JsVal`), the error taxonomy
(`src/lib/errors.ts`), the retry controller (`src/utils/rate-limit.ts`),
the request executor's status classification (`LinkedInClient.request`),
header construction (`src/lib/headers.ts`), credential resolution
(`src/lib/auth.ts` / `src/lib/config.ts`) and the entity-normalizer
parsers of `src/lib/client.ts`.

Modelling conventions:
  * JS numbers are modelled as `Int` (the code only manipulates integral
    values in the parts under verification); `NaN` is modelled by `none`
    in partial numeric conversions.
  * `undefined` and `null` are distinct `JsVal` constructors; `x ?? y`
    is `jsOr`, truthiness is `jsTruthy`.
  * Property access `o.f` / `o?.f` is `jsGet`, which returns `undefined`
    on non-objects (primitive boxing never yields these fields in the
    payloads at hand; the code never dereferences a possibly-null value
    without `?.`).
-/

namespace Linked

/-- A JavaScript value, as the Voyager payloads deliver them. -/
inductive JsVal where
  | null : JsVal
  | undefined : JsVal
  | bool : Bool → JsVal
  | num : Int → JsVal
  | str : String → JsVal
  | arr : List JsVal → JsVal
  | obj : List (String × JsVal) → JsVal

/-- JS truthiness (`NaN` is not modelled; all other falsy values are). -/
def jsTruthy : JsVal → Bool
  | .null => false
  | .undefined => false
  | .bool b => b
  | .num n => n != 0
  | .str s => s != ""
  | .arr _ => true
  | .obj _ => true

def jsFalsy (v : JsVal) : Bool := !jsTruthy v

/-- First binding of `key` in an object's field list (JS object keys are unique;
the model keeps the first occurrence authoritative). -/
def fieldVal : List (String × JsVal) → String → JsVal
  | [], _ => .undefined
  | (k, v) :: rest, key => if k = key then v else fieldVal rest key

/-- Property access `o.key` (and `o?.key`: the parsers only apply plain access
to values known to be objects). Non-objects yield `undefined`. -/
def jsGet : JsVal → String → JsVal
  | .obj fields, key => fieldVal fields key
  | _, _ => .undefined

/-- The nullish-coalescing operator `a ?? b`. -/
def jsOr (a b : JsVal) : JsVal :=
  match a with
  | .null => b
  | .undefined => b
  | v => v

/-- Substring helpers modelling JS `String.prototype.includes`. -/
def charsStartWith : List Char → List Char → Bool
  | [], _ => true
  | _ :: _, [] => false
  | a :: as, b :: bs => a = b && charsStartWith as bs

def charsContain (sub : List Char) : List Char → Bool
  | [] => charsStartWith sub []
  | c :: cs => charsStartWith sub (c :: cs) || charsContain sub cs

/-- `s.includes(sub)` for JS strings. -/
def strIncludes (s sub : String) : Bool := charsContain sub.toList s.toList

mutual
/-- `String(v)` / `v.toString()` for the values the parsers stringify.
Arrays join their elements with `","`, rendering `null`/`undefined`
elements as the empty string, as `Array.prototype.toString` does. -/
def jsToString : JsVal → String
  | .null => "null"
  | .undefined => "undefined"
  | .bool b => if b then "true" else "false"
  | .num n => toString n
  | .str s => s
  | .arr xs => jsJoinComma xs
  | .obj _ => "[object Object]"

/-- `Array.prototype.join(",")`, with nullish elements rendered empty. -/
def jsJoinComma : List JsVal → String
  | [] => ""
  | [.null] => ""
  | [.undefined] => ""
  | [v] => jsToString v
  | .null :: rest => "," ++ jsJoinComma rest
  | .undefined :: rest => "," ++ jsJoinComma rest
  | v :: rest => jsToString v ++ "," ++ jsJoinComma rest
end

/-- ASCII whitespace, for the JS `String.prototype.trim` model. -/
def isJsWs (c : Char) : Bool := c = ' ' || c = '\t' || c = '\n' || c = '\r'

/-- JS `s.trim()` (modelled over the ASCII whitespace the payloads use;
`String.trim` itself is avoided because it does not reduce inside the
kernel). -/
def jsTrim (s : String) : String :=
  String.mk ((((s.toList.dropWhile isJsWs).reverse).dropWhile isJsWs).reverse)

mutual
/-- `str` of `src/lib/client.ts`: the string-coercion primitive applied at
every leaf field. -/
def str (value : JsVal) : String :=
  match value with
  | .null => ""
  | .undefined => ""
  | .str s => s
  | .num n => toString n
  | .obj fields =>
    match strTextField fields with
    | some s => s
    | none => jsToString (.obj fields)
  | v => jsToString v

/-- The `"text" in value` lookup of `str`, recursing into the wrapper. -/
def strTextField : List (String × JsVal) → Option String
  | [] => none
  | (k, v) :: rest => if k = "text" then some (str v) else strTextField rest
end

/-- Integral fragment of JS `Number(string)`: trimmed empty string is `0`,
an optional sign followed by digits is that integer, everything else is
`NaN` (`none`). (Fractional, hex and exponent forms are outside the model;
the payload fields under verification are integral.) -/
def jsNumOfDigits : List Char → Option Nat
  | [] => none
  | [c] => if c.isDigit then some (c.toNat - 48) else none
  | c :: cs =>
    match jsNumOfDigits cs, c.isDigit with
    | some n, true => some ((c.toNat - 48) * 10 ^ cs.length + n)
    | _, _ => none

def jsNumOfString (s : String) : Option Int :=
  match (jsTrim s).toList with
  | [] => some 0
  | '-' :: cs => (jsNumOfDigits cs).map (fun n => -(n : Int))
  | '+' :: cs => (jsNumOfDigits cs).map (fun n => (n : Int))
  | cs => (jsNumOfDigits cs).map (fun n => (n : Int))

/-- JS `Number(v)`, `none` for `NaN`. Arrays and objects convert through
their string form, as ToPrimitive does. -/
def jsNumber : JsVal → Option Int
  | .null => some 0
  | .undefined => none
  | .bool b => some (if b then 1 else 0)
  | .num n => some n
  | .str s => jsNumOfString s
  | .arr xs => jsNumOfString (jsToString (.arr xs))
  | .obj _ => none

/-- `num` of `src/lib/client.ts`: the numeric-coercion primitive. -/
def num (value : JsVal) : Int :=
  match value with
  | .null => 0
  | .undefined => 0
  | v => match jsNumber v with
    | some n => n
    | none => 0

/-! ### Error taxonomy (`src/lib/errors.ts`)

Each TS error class becomes a smart constructor producing an `Err` value
whose `cls` tag models the runtime class (for `instanceof` tests).
`plainError` models a bare `Error` (network failures), which has no
`statusCode` property at all; every `LinkedInError` subclass carries the
property, possibly `undefined` (`none`). -/

inductive ErrClass where
  | plainError
  | linkedIn
  | authentication
  | rateLimit
  | challenge
  | notFound
  | cookieExtraction
  deriving DecidableEq

structure Err where
  cls : ErrClass
  message : String
  statusCode : Option Nat
  endpoint : Option String
  /-- Only meaningful on `rateLimit` values (the TS field exists only there). -/
  retryAfter : Nat
  deriving DecidableEq

/-- `new Error(message)` — a plain error with no `statusCode` property. -/
def plainError (message : String) : Err := ⟨.plainError, message, none, none, 60⟩

/-- `new LinkedInError(message, statusCode?, endpoint?)`. -/
def LinkedInError.make (message : String) (statusCode : Option Nat)
    (endpoint : Option String) : Err :=
  ⟨.linkedIn, message, statusCode, endpoint, 60⟩

def defaultAuthMessage : String :=
  "Authentication failed. Your cookies may be expired.\nRun \"linked auth\" or log into LinkedIn in your browser and try again."

/-- `new AuthenticationError(message?)`. -/
def AuthenticationError.make (message : Option String) : Err :=
  ⟨.authentication, message.getD defaultAuthMessage, some 401, none, 60⟩

/-- `new RateLimitError(retryAfter = 60)`. -/
def RateLimitError.make (retryAfter : Nat) : Err :=
  ⟨.rateLimit, s!"Rate limited by LinkedIn. Please wait {retryAfter} seconds before retrying.",
    some 429, none, retryAfter⟩

/-- `new ChallengeError()`. -/
def ChallengeError.make : Err :=
  ⟨.challenge,
    "LinkedIn requires a challenge/CAPTCHA verification.\nPlease log into LinkedIn in your browser, complete the challenge, then try again.",
    some 403, none, 60⟩

/-- `new NotFoundError(resource)`. -/
def NotFoundError.make (resource : String) : Err :=
  ⟨.notFound, s!"{resource} not found.", some 404, none, 60⟩

/-- `new CookieExtractionError(source, cause?)`. -/
def CookieExtractionError.make (source : String) (cause : Option String) : Err :=
  ⟨.cookieExtraction,
    s!"Failed to extract cookies from {source}." ++
      (match cause with | some c => " " ++ c | none => "") ++
      "\nTry setting LINKEDIN_LI_AT and LINKEDIN_JSESSIONID environment variables instead.",
    none, none, 60⟩

/-! ### Retry controller (`src/utils/rate-limit.ts`) -/

def DEFAULT_INITIAL_DELAY : Nat := 1000
def DEFAULT_MAX_DELAY : Nat := 60000
def DEFAULT_MAX_RETRIES : Nat := 3
def DEFAULT_MULTIPLIER : Nat := 2

structure RetryOptions where
  maxRetries : Nat
  initialDelay : Nat
  maxDelay : Nat
  multiplier : Nat
  deriving DecidableEq

/-- The option record `withRetry` builds from its defaults when no options
are supplied. -/
def defaultRetryOptions : RetryOptions :=
  ⟨DEFAULT_MAX_RETRIES, DEFAULT_INITIAL_DELAY, DEFAULT_MAX_DELAY, DEFAULT_MULTIPLIER⟩

/-- `isRetryable` of `src/utils/rate-limit.ts`. The `"statusCode" in error`
test is true exactly for the `LinkedInError` hierarchy (`cls ≠ plainError`),
and an `undefined` status fails the `>= 500` comparison. -/
def isRetryable (error : Err) : Bool :=
  if error.cls = .rateLimit then true
  else if strIncludes error.message "ECONNRESET" then true
  else if strIncludes error.message "ETIMEDOUT" then true
  else if strIncludes error.message "ECONNREFUSED" then true
  else if strIncludes error.message "fetch failed" then true
  else if error.cls ≠ .plainError then
    match error.statusCode with
    | some status => decide (500 ≤ status ∧ status < 600)
    | none => false
  else false

/-- Trace of one `withRetry` run: the final outcome, the total number of
calls made to the wrapped operation, and the sleeps performed (ms), in
order. -/
structure RetryOutcome (α : Type) where
  result : Except Err α
  attempts : Nat
  waits : List Nat

/-- The loop body of `withRetry`. The operation is modelled as a function
from the attempt index to that attempt's outcome. `remaining` is
`maxRetries - attempt`, so `remaining = 0` is the `attempt === maxRetries`
break. On a retryable failure a `RateLimitError` overwrites the delay with
`retryAfter * 1000`; the sleep is `min(delay, maxDelay)` and the delay is
then multiplied for the next round. -/
def withRetryGo {α : Type} (fn : Nat → Except Err α) (maxDelay multiplier : Nat) :
    Nat → Nat → Nat → RetryOutcome α
  | remaining, attempt, delay =>
    match fn attempt with
    | .ok v => ⟨.ok v, attempt + 1, []⟩
    | .error e =>
      if isRetryable e then
        match remaining with
        | 0 => ⟨.error e, attempt + 1, []⟩
        | r + 1 =>
          let d := if e.cls = ErrClass.rateLimit then e.retryAfter * 1000 else delay
          let rest := withRetryGo fn maxDelay multiplier r (attempt + 1) (d * multiplier)
          ⟨rest.result, rest.attempts, min d maxDelay :: rest.waits⟩
      else ⟨.error e, attempt + 1, []⟩

/-- `withRetry(fn, options)` of `src/utils/rate-limit.ts`, as its trace. -/
def withRetry {α : Type} (fn : Nat → Except Err α) (options : RetryOptions) :
    RetryOutcome α :=
  withRetryGo fn options.maxDelay options.multiplier options.maxRetries 0 options.initialDelay

/-! ### Request executor (`LinkedInClient.request`, `src/lib/client.ts`)

One HTTP response is a record of the observable pieces the method reads:
status, status text, body text, the parsed `retry-after` header when the
response carries a numeric one, and the `content-type` header. The
network call, pacing delay and timeout are outside the pure model; the
status classification and body decoding are total functions of the
response. -/

structure HttpResponse where
  status : Nat
  statusText : String
  bodyText : String
  /-- The `retry-after` header, already parsed; `none` when absent. -/
  retryAfter : Option Nat
  contentType : Option String
  deriving DecidableEq

/-- A decoded 2xx body: either the JSON decoding of the raw text or the
raw text itself, marked by which branch the code took. -/
inductive ReqBody where
  | json : String → ReqBody
  | text : String → ReqBody
  deriving DecidableEq

/-- The status-classification and body-decoding part of
`LinkedInClient.request`, checked in source order. -/
def requestClassify (url : String) (response : HttpResponse) : Except Err ReqBody :=
  if response.status = 401 then .error (AuthenticationError.make none)
  else if response.status = 403 then
    if strIncludes response.bodyText "challenge" || strIncludes response.bodyText "captcha" then
      .error ChallengeError.make
    else .error (AuthenticationError.make (some "Access forbidden. Your session may be restricted."))
  else if response.status = 404 then .error (NotFoundError.make "Resource")
  else if response.status = 429 then
    .error (RateLimitError.make (response.retryAfter.getD 60))
  else if ¬ (200 ≤ response.status ∧ response.status < 300) then
    .error (LinkedInError.make
      s!"LinkedIn API error: {response.status} {response.statusText}"
      (some response.status) (some url))
  else if strIncludes (response.contentType.getD "") "json" then .ok (.json response.bodyText)
  else .ok (.text response.bodyText)

/-! ### Header construction (`src/lib/headers.ts`) -/

structure CookieSet where
  li_at : String
  jsessionid : String
  li_mc : Option String
  bcookie : Option String
  bscookie : Option String
  deriving DecidableEq

/-- JS `Array.prototype.join(sep)` (over strings). -/
def joinWith (sep : String) : List String → String
  | [] => ""
  | [p] => p
  | p :: rest => p ++ sep ++ joinWith sep rest

/-- `s.replace(/"/g, "")`. -/
def stripQuotes (s : String) : String :=
  String.mk (s.toList.filter (fun c => c ≠ '"'))

def DEFAULT_USER_AGENT : String :=
  "Mozilla/5.0 (Macintosh; Intel Mac OS X 10_15_7) AppleWebKit/537.36 (KHTML, like Gecko) Chrome/132.0.0.0 Safari/537.36"

/-- One `if (cookies.x) parts.push(`x=${cookies.x}`)` step of
`buildCookieString`: the extended cookie's part when it is truthy. -/
def cookiePartOpt (name : String) (v : Option String) : List String :=
  match v with
  | some s => if s ≠ "" then [name ++ "=" ++ s] else []
  | none => []

/-- `buildCookieString` of `src/lib/headers.ts`. -/
def buildCookieString (cookies : CookieSet) : String :=
  let parts := [s!"li_at={cookies.li_at}",
    "JSESSIONID=\"" ++ stripQuotes cookies.jsessionid ++ "\""] ++
    cookiePartOpt "li_mc" cookies.li_mc ++
    cookiePartOpt "bcookie" cookies.bcookie ++
    cookiePartOpt "bscookie" cookies.bscookie
  joinWith "; " parts

structure RequestHeaders where
  userAgent : String
  accept : String
  xLiLang : String
  /-- The `x-li-track` JSON blob depends on the ambient timezone
  (`new Date().getTimezoneOffset()`), so the model takes it as an input. -/
  xLiTrack : String
  xRestliProtocolVersion : String
  csrfToken : String
  cookie : String
  deriving DecidableEq

/-- `buildHeaders` of `src/lib/headers.ts`. -/
def buildHeaders (xLiTrack : String) (cookies : CookieSet) : RequestHeaders :=
  let csrfToken := "ajax:" ++ stripQuotes cookies.jsessionid
  { userAgent := DEFAULT_USER_AGENT
    accept := "application/vnd.linkedin.normalized+json+2.1"
    xLiLang := "en_US"
    xLiTrack := xLiTrack
    xRestliProtocolVersion := "2.0.0"
    csrfToken := csrfToken
    cookie := buildCookieString cookies }

/-! ### Credential resolution (`src/lib/auth.ts`, `src/lib/config.ts`)

`resolveCredentials` is a pure function of its options and of the ambient
environment (env vars, loaded config, current-account slot, browser
extractor); the model threads the ambient pieces as an `AuthEnv`. JS
truthiness on an optional string field is `optTruthy`: present and
non-empty. -/

structure AuthOptions where
  cookies : Option CookieSet
  cookieSource : Option String
  account : Option String

structure AccountConfig where
  li_at : Option String
  jsessionid : Option String
  cookieSource : Option String
  deriving DecidableEq

structure LinkedConfig where
  li_at : Option String
  jsessionid : Option String
  cookieSource : Option String
  /-- `accounts?: Record<string, AccountConfig>`, keys in insertion order
  and unique. `none` when the key is absent. -/
  accounts : Option (List (String × AccountConfig))
  defaultAccount : Option String
  deriving DecidableEq

def optTruthy : Option String → Bool
  | none => false
  | some s => s ≠ ""

/-- `config.accounts?.[name]` (keys unique: first match). -/
def lookupAccount (accounts : Option (List (String × AccountConfig))) (name : String) :
    Option AccountConfig :=
  match accounts with
  | none => none
  | some accts => (accts.find? (fun kv => kv.1 = name)).map Prod.snd

/-- `getAccountCredentials` of `src/lib/config.ts`. -/
def getAccountCredentials (config : LinkedConfig) (name : String) : Option CookieSet :=
  match lookupAccount config.accounts name with
  | none => none
  | some account =>
    if optTruthy account.li_at && optTruthy account.jsessionid then
      some ⟨account.li_at.getD "", account.jsessionid.getD "", none, none, none⟩
    else none

/-- The `Account "…" not found. Available accounts: …` message, with
`available.join(", ") || "(none)"`. -/
def accountNotFoundMsg (name : String) (accts : List (String × AccountConfig)) : String :=
  let joined := joinWith ", " (accts.map Prod.fst)
  "Account \"" ++ name ++ "\" not found. Available accounts: " ++
    (if joined = "" then "(none)" else joined)

/-- `options?.account ?? getCurrentAccount() ?? config.defaultAccount`
(`??` skips only nullish values: an explicitly empty name stops the chain
and then fails the truthiness test inside the tier). -/
def accountNameOf (options : Option AuthOptions) (currentAccount : Option String)
    (config : LinkedConfig) : Option String :=
  ((options.bind AuthOptions.account).orElse (fun _ => currentAccount)).orElse
    (fun _ => config.defaultAccount)

/-- The ambient state `resolveCredentials` reads: the two environment
variables, the loaded config, the process-wide current-account slot, and
the browser cookie extractor (modelled as a function from the requested
source to either a cookie set or the thrown error's message). -/
structure AuthEnv where
  envLiAt : Option String
  envJsessionid : Option String
  config : LinkedConfig
  currentAccount : Option String
  browser : Option String → Except String CookieSet

/-- `resolveCredentials` of `src/lib/auth.ts` (the five-tier version). -/
def resolveCredentials (options : Option AuthOptions) (env : AuthEnv) :
    Except Err CookieSet :=
  -- 1. Explicitly provided cookies
  let explicitPair : Option CookieSet :=
    match options.bind AuthOptions.cookies with
    | some c => if c.li_at ≠ "" ∧ c.jsessionid ≠ "" then some c else none
    | none => none
  match explicitPair with
  | some c => .ok c
  | none =>
  -- 2. Environment variables
  if optTruthy env.envLiAt && optTruthy env.envJsessionid then
    .ok ⟨env.envLiAt.getD "", env.envJsessionid.getD "", none, none, none⟩
  else
  -- 3. Named account from config
  let config := env.config
  let accountName : Option String := accountNameOf options env.currentAccount config
  let namedTier : Option (Except Err CookieSet) :=
    match accountName, config.accounts with
    | some name, some accts =>
      if name ≠ "" then
        match getAccountCredentials config name with
        | some creds => some (.ok creds)
        | none =>
          match lookupAccount (some accts) name with
          | none =>
            -- Account specified but not found — helpful error, no fall-through
            some (.error (AuthenticationError.make (some (accountNotFoundMsg name accts))))
          | some account =>
            -- Account exists but has no direct credentials — try its cookieSource
            match account.cookieSource with
            | some src =>
              if src ≠ "" then
                match env.browser (some src) with
                | .ok cs => some (.ok cs)
                | .error _ => none -- catch { /* fall through */ }
              else none
            | none => none
      else none
    | _, _ => none
  match namedTier with
  | some outcome => outcome
  | none =>
  -- 4. Legacy flat config credentials
  if optTruthy config.li_at && optTruthy config.jsessionid then
    .ok ⟨config.li_at.getD "", config.jsessionid.getD "", none, none, none⟩
  else
  -- 5. Browser cookie extraction
  let cookieSource : Option String :=
    (options.bind AuthOptions.cookieSource).orElse (fun _ => config.cookieSource)
  match env.browser cookieSource with
  | .ok cs => .ok cs
  | .error msg => .error (AuthenticationError.make (some msg))

/-! ### Entity normalizer (`src/lib/client.ts`) — data model

Domain records mirror `src/lib/types.ts`; numbers are `Int`. -/

structure PagingInfo where
  start : Int
  count : Int
  total : Int
  deriving DecidableEq

/-- The raw envelope `{ data, included[], paging? }`. `included` may be
absent (`data.included ?? []` in every parser). -/
structure VoyagerResponse where
  data : JsVal
  included : Option (List JsVal)
  paging : Option PagingInfo

def includedOf (data : VoyagerResponse) : List JsVal := data.included.getD []

/-- `v?.toString().includes(sub)`: `false` when `v` is nullish (the optional
chain short-circuits to `undefined`, which is falsy). -/
def typeIncl (v : JsVal) (sub : String) : Bool :=
  match v with
  | .null => false
  | .undefined => false
  | w => strIncludes (jsToString w) sub

structure DateInfo where
  year : Int
  month : Option Int
  deriving DecidableEq

structure Experience where
  title : String
  companyName : String
  companyUrn : String
  locationName : String
  description : String
  startDate : DateInfo
  endDate : Option DateInfo
  current : Bool
  deriving DecidableEq

structure Education where
  schoolName : String
  degreeName : String
  fieldOfStudy : String
  startDate : DateInfo
  endDate : Option DateInfo
  deriving DecidableEq

structure Profile where
  publicIdentifier : String
  firstName : String
  lastName : String
  headline : String
  summary : String
  industryName : String
  locationName : String
  geoCountryName : String
  profilePictureUrl : String
  backgroundPictureUrl : String
  connectionCount : Int
  followerCount : Int
  entityUrn : String
  profileUrl : String
  experience : List Experience
  education : List Education
  deriving DecidableEq

structure ReactionCount where
  type : String
  count : Int
  deriving DecidableEq

structure FeedUpdate where
  urn : String
  authorUrn : String
  authorName : String
  authorHeadline : String
  authorProfileUrl : String
  text : String
  commentary : String
  numLikes : Int
  numComments : Int
  numShares : Int
  createdAt : Int
  reactionTypeCounts : List ReactionCount
  postUrl : String
  deriving DecidableEq

structure SearchItem where
  type : String
  title : String
  subtitle : String
  url : String
  urn : String
  imageUrl : String
  snippets : List String
  deriving DecidableEq

structure SearchResult where
  type : String
  total : Int
  items : List SearchItem
  paging : PagingInfo
  deriving DecidableEq

structure Connection where
  publicIdentifier : String
  firstName : String
  lastName : String
  headline : String
  profilePictureUrl : String
  entityUrn : String
  createdAt : Int
  profileUrl : String
  deriving DecidableEq

structure Invitation where
  id : String
  entityUrn : String
  senderName : String
  senderHeadline : String
  senderProfileUrl : String
  message : String
  sentTime : Int
  invitationType : String
  deriving DecidableEq

structure ConversationParticipant where
  publicIdentifier : String
  firstName : String
  lastName : String
  headline : String
  profilePictureUrl : String
  deriving DecidableEq

structure Message where
  messageId : String
  entityUrn : String
  senderName : String
  senderUrn : String
  text : String
  createdAt : Int
  conversationId : String
  deriving DecidableEq

structure Conversation where
  conversationId : String
  entityUrn : String
  lastActivityAt : Int
  read : Bool
  participants : List ConversationParticipant
  lastMessage : Option Message
  deriving DecidableEq

structure Notification where
  id : String
  entityUrn : String
  headline : String
  subHeadline : String
  additionalContent : String
  createdAt : Int
  read : Bool
  actionUrl : String
  deriving DecidableEq

structure Job where
  id : String
  entityUrn : String
  title : String
  companyName : String
  companyUrl : String
  locationName : String
  description : String
  listedAt : Int
  expireAt : Int
  workRemoteAllowed : Bool
  applicantCount : Int
  seniorityLevel : String
  employmentType : String
  jobFunctions : List String
  industries : List String
  jobUrl : String
  deriving DecidableEq

structure ProfileView where
  viewerName : String
  viewerHeadline : String
  viewerProfileUrl : String
  viewedAt : Int
  isAnonymous : Bool
  deriving DecidableEq

/-! ### Entity normalizer — helpers -/

/-- JS `s.split(c)` for a one-character separator (the code only splits
on `":"`). -/
def splitChar (c : Char) : List Char → List (List Char)
  | [] => [[]]
  | d :: rest =>
    match splitChar c rest, decide (d = c) with
    | r, true => [] :: r
    | [], false => [[d]]
    | h :: t, false => (d :: h) :: t

def jsSplitColon (s : String) : List String := (splitChar ':' s.toList).map String.mk

/-- `str(urn).split(":").pop() ?? ""` (`split` never yields an empty array,
so `pop` always returns the last segment; the `?? ""` branch matches the
source's fallback). -/
def lastUrnSegment (urn : String) : String := ((jsSplitColon urn).getLast?).getD ""

/-- `extractIdFromUrn` of `src/lib/client.ts`. -/
def extractIdFromUrn (urn : String) : String := ((jsSplitColon urn).getLast?).getD urn

/-- The `rootUrl` + `artifacts` branch of `extractImageUrl`: `none` falls
through to the next pattern, as the source does when the largest artifact
has no path segment. -/
def rootArtifactsUrl (fields : List (String × JsVal)) : Option String :=
  let rootUrl := fieldVal fields "rootUrl"
  match fieldVal fields "artifacts" with
  | .arr xs =>
    if jsTruthy rootUrl then
      match xs.getLast? with
      | some largest =>
        let seg := jsGet largest "fileIdentifyingUrlPathSegment"
        if jsTruthy seg then some (jsToString rootUrl ++ jsToString seg) else none
      | none => none
    else none
  | _ => none

mutual
/-- `extractImageUrl` of `src/lib/client.ts`. -/
def extractImageUrl (imageData : JsVal) : String :=
  if jsFalsy imageData then ""
  else match imageData with
    | .str s => s
    | .obj fields =>
      (match rootArtifactsUrl fields with
      | some url => url
      | none =>
        match displayImageRefBranch fields with
        | some url => url
        | none =>
          match vectorImageKeyBranch fields with
          | some url => url
          | none => "")
    | _ => ""

/-- Scan for the `displayImageReference` property (`?.vectorImage`). -/
def displayImageRefBranch : List (String × JsVal) → Option String
  | [] => none
  | (k, v) :: rest =>
    if k = "displayImageReference" then displayImageRefInner v
    else displayImageRefBranch rest

def displayImageRefInner : JsVal → Option String
  | .obj fields => vectorImageOf fields
  | _ => none

def vectorImageOf : List (String × JsVal) → Option String
  | [] => none
  | (k, v) :: rest =>
    if k = "vectorImage" then
      if jsTruthy v then some (extractImageUrl v) else none
    else vectorImageOf rest

/-- Scan for the `com.linkedin.common.VectorImage` property. -/
def vectorImageKeyBranch : List (String × JsVal) → Option String
  | [] => none
  | (k, v) :: rest =>
    if k = "com.linkedin.common.VectorImage" then
      if jsTruthy v then some (extractImageUrl v) else none
    else vectorImageKeyBranch rest
end

/-- `parseDate` of `src/lib/client.ts` (`typeof d === "object"` also holds
for arrays, whose `year`/`month` reads yield `undefined`). -/
def parseDate (d : JsVal) : DateInfo :=
  match d with
  | .obj _ =>
    { year := num (jsGet d "year")
      month := match jsGet d "month" with
        | .null => none
        | .undefined => none
        | m => some (num m) }
  | .arr _ =>
    { year := num (jsGet d "year")
      month := match jsGet d "month" with
        | .null => none
        | .undefined => none
        | m => some (num m) }
  | _ => { year := 0, month := none }

/-! ### Entity normalizer — parsers -/

def parseExperience (included : List JsVal) : List Experience :=
  (included.filter (fun item =>
    typeIncl (jsGet item "$type") "Position" || typeIncl (jsGet item "$type") "position")).map
    (fun item =>
      let timePeriod := jsGet item "timePeriod"
      { title := str (jsGet item "title")
        companyName := str (jsOr (jsGet item "companyName") (jsGet (jsGet item "company") "name"))
        companyUrn := str (jsGet item "companyUrn")
        locationName := str (jsGet item "locationName")
        description := str (jsGet item "description")
        startDate := parseDate (jsOr (jsGet timePeriod "startDate") (jsGet item "startDate"))
        endDate :=
          if jsTruthy (jsGet timePeriod "endDate") || jsTruthy (jsGet item "endDate") then
            some (parseDate (jsOr (jsGet timePeriod "endDate") (jsGet item "endDate")))
          else none
        current := !jsTruthy (jsGet timePeriod "endDate") && !jsTruthy (jsGet item "endDate") })

def parseEducation (included : List JsVal) : List Education :=
  (included.filter (fun item =>
    typeIncl (jsGet item "$type") "Education" || typeIncl (jsGet item "$type") "education")).map
    (fun item =>
      let timePeriod := jsGet item "timePeriod"
      { schoolName := str (jsOr (jsGet item "schoolName") (jsGet (jsGet item "school") "name"))
        degreeName := str (jsGet item "degreeName")
        fieldOfStudy := str (jsGet item "fieldOfStudy")
        startDate := parseDate (jsOr (jsGet timePeriod "startDate") (jsGet item "startDate"))
        endDate :=
          if jsTruthy (jsGet timePeriod "endDate") || jsTruthy (jsGet item "endDate") then
            some (parseDate (jsOr (jsGet timePeriod "endDate") (jsGet item "endDate")))
          else none })

/-- `parseProfile` of `src/lib/client.ts`. -/
def parseProfile (data : VoyagerResponse) : Profile :=
  let d := data.data
  let included := includedOf data
  -- Find the miniProfile or profile entity (falling back to `data` itself)
  let p := match included.find? (fun item =>
      typeIncl (jsGet item "$type") "Profile" || typeIncl (jsGet item "$type") "MiniProfile") with
    | some e => e
    | none => d
  { publicIdentifier := str (jsOr (jsGet p "publicIdentifier")
      (jsOr (jsGet (jsGet p "miniProfile") "publicIdentifier") (jsGet d "publicIdentifier")))
    firstName := str (jsOr (jsGet p "firstName") (jsGet d "firstName"))
    lastName := str (jsOr (jsGet p "lastName") (jsGet d "lastName"))
    headline := str (jsOr (jsGet p "headline") (jsGet d "headline"))
    summary := str (jsOr (jsGet p "summary") (jsGet d "summary"))
    industryName := str (jsOr (jsGet p "industryName") (jsGet d "industryName"))
    locationName := str (jsOr (jsGet p "locationName")
      (jsOr (jsGet d "locationName") (jsGet p "geoLocationName")))
    geoCountryName := str (jsOr (jsGet p "geoCountryName") (jsGet d "geoCountryName"))
    profilePictureUrl := extractImageUrl (jsOr (jsGet p "profilePicture")
      (jsOr (jsGet p "picture") (jsGet d "profilePicture")))
    backgroundPictureUrl := extractImageUrl (jsOr (jsGet p "backgroundImage") (jsGet d "backgroundImage"))
    connectionCount := num (jsOr (jsGet p "connectionCount") (jsGet d "connectionCount"))
    followerCount := num (jsOr (jsGet p "followerCount") (jsGet d "followerCount"))
    entityUrn := str (jsOr (jsGet p "entityUrn") (jsGet d "entityUrn"))
    profileUrl := "https://www.linkedin.com/in/" ++
      str (jsOr (jsGet p "publicIdentifier") (jsGet d "publicIdentifier"))
    experience := parseExperience included
    education := parseEducation included }

/-- `parseFeedUpdates` of `src/lib/client.ts`. -/
def parseFeedUpdates (data : VoyagerResponse) : List FeedUpdate :=
  (includedOf data).filterMap (fun item =>
    if !typeIncl (jsGet item "$type") "Update" && !typeIncl (jsGet item "entityUrn") "update" then
      none
    else
      let actorObj := jsGet item "actor"
      let socialDetail := jsGet item "socialDetail"
      let commentary := jsGet item "commentary"
      let urn := str (jsOr (jsGet item "entityUrn") (jsGet item "urn"))
      if urn = "" then none
      else some
        { urn := urn
          authorUrn := str (jsOr (jsGet actorObj "urn") (jsGet actorObj "entityUrn"))
          authorName := str (jsOr (jsGet (jsGet actorObj "name") "text") (jsGet actorObj "name"))
          authorHeadline := str (jsOr (jsGet (jsGet actorObj "description") "text")
            (jsGet actorObj "description"))
          authorProfileUrl := str (jsGet actorObj "navigationUrl")
          text := str (jsOr (jsGet (jsGet commentary "text") "text") (jsGet commentary "text"))
          commentary := str (jsOr (jsGet (jsGet commentary "text") "text") (jsGet commentary "text"))
          numLikes := num (jsOr (jsGet (jsGet socialDetail "totalSocialActivityCounts") "numLikes")
            (jsGet socialDetail "likes"))
          numComments := num (jsOr (jsGet (jsGet socialDetail "totalSocialActivityCounts") "numComments")
            (jsGet socialDetail "comments"))
          numShares := num (jsOr (jsGet (jsGet socialDetail "totalSocialActivityCounts") "numShares")
            (jsGet socialDetail "shares"))
          createdAt := num (jsOr (jsGet item "createdTime") (jsGet item "publishedAt"))
          reactionTypeCounts := []
          postUrl := "https://www.linkedin.com/feed/update/" ++ urn })

/-- `parseSearchResults` of `src/lib/client.ts`. -/
def parseSearchResults (data : VoyagerResponse) (type : String) : SearchResult :=
  let items := (includedOf data).filterMap (fun item =>
    let title := str (jsOr (jsGet (jsGet item "title") "text")
      (jsOr (jsGet item "title") (jsGet item "name")))
    if title = "" then none
    else some
      { type := type
        title := title
        subtitle := str (jsOr (jsGet (jsGet item "primarySubtitle") "text")
          (jsOr (jsGet item "headline") (jsGet (jsGet item "subtitle") "text")))
        url := str (jsOr (jsGet item "navigationUrl") (jsGet item "url"))
        urn := str (jsOr (jsGet item "entityUrn") (jsGet item "targetUrn"))
        imageUrl := extractImageUrl (jsGet item "image")
        snippets := match jsGet (jsGet item "summary") "textItems" with
          | .arr ts => ts.map (fun t => str (jsGet t "text"))
          | _ =>
            if jsTruthy (jsGet (jsGet item "summary") "text") then
              [str (jsGet (jsGet item "summary") "text")]
            else [] })
  { type := type
    total := match data.paging with
      | some p => p.total
      | none => (items.length : Int)
    items := items
    paging := data.paging.getD ⟨0, (items.length : Int), (items.length : Int)⟩ }

/-- `parseConnections` of `src/lib/client.ts`. -/
def parseConnections (data : VoyagerResponse) : List Connection :=
  (((includedOf data).filter (fun item =>
      typeIncl (jsGet item "$type") "MiniProfile" || jsTruthy (jsGet item "publicIdentifier"))).map
    (fun item =>
      { publicIdentifier := str (jsGet item "publicIdentifier")
        firstName := str (jsGet item "firstName")
        lastName := str (jsGet item "lastName")
        headline := str (jsOr (jsGet item "occupation") (jsGet item "headline"))
        profilePictureUrl := extractImageUrl (jsGet item "picture")
        entityUrn := str (jsGet item "entityUrn")
        createdAt := num (jsGet item "createdAt")
        profileUrl := "https://www.linkedin.com/in/" ++ str (jsGet item "publicIdentifier") })).filter
    (fun c => c.publicIdentifier ≠ "")

/-- `parseInvitations` of `src/lib/client.ts`. -/
def parseInvitations (data : VoyagerResponse) : List Invitation :=
  (((includedOf data).filter (fun item =>
      typeIncl (jsGet item "$type") "Invitation" || typeIncl (jsGet item "entityUrn") "invitation")).map
    (fun item =>
      let fromMember := jsGet item "fromMember"
      { id := str (jsOr (jsGet item "id")
          (.str (extractIdFromUrn (str (jsGet item "entityUrn")))))
        entityUrn := str (jsGet item "entityUrn")
        senderName := str (if jsTruthy fromMember then
            .str (jsTrim (jsToString (jsOr (jsGet fromMember "firstName") (.str "")) ++ " " ++
              jsToString (jsOr (jsGet fromMember "lastName") (.str ""))))
          else jsGet item "senderName")
        senderHeadline := str (jsOr (jsGet fromMember "occupation") (jsGet item "senderHeadline"))
        senderProfileUrl :=
          if jsTruthy (jsGet fromMember "publicIdentifier") then
            "https://www.linkedin.com/in/" ++ jsToString (jsGet fromMember "publicIdentifier")
          else ""
        message := str (jsGet item "message")
        sentTime := num (jsGet item "sentTime")
        invitationType := str (jsGet item "invitationType") })).filter
    (fun i => i.entityUrn ≠ "")

/-! `parseConversations` and its cross-referencing, factored exactly along
the source's local definitions so the resolution steps can be named in
theorems. -/

/-- The profile-stub condition of the `miniProfiles` loop:
`item.$type?.toString().includes("MiniProfile") || (item.publicIdentifier && item.firstName)`. -/
def isProfileStub (item : JsVal) : Bool :=
  typeIncl (jsGet item "$type") "MiniProfile" ||
    (jsTruthy (jsGet item "publicIdentifier") && jsTruthy (jsGet item "firstName"))

/-- The lightweight participant record built for a profile stub. -/
def participantOf (item : JsVal) : ConversationParticipant :=
  { publicIdentifier := str (jsGet item "publicIdentifier")
    firstName := str (jsGet item "firstName")
    lastName := str (jsGet item "lastName")
    headline := str (jsOr (jsGet item "occupation") (jsGet item "headline"))
    profilePictureUrl := extractImageUrl (jsGet item "picture") }

/-- The `miniProfiles` map: `Map.set` overwrites, so a later stub with the
same URN wins; prepending and first-match lookup model that. -/
def miniProfilesMap (included : List JsVal) : List (String × ConversationParticipant) :=
  included.foldl (fun m item =>
    if isProfileStub item then (str (jsGet item "entityUrn"), participantOf item) :: m else m) []

def mapGetParticipant (m : List (String × ConversationParticipant)) (urn : String) :
    Option ConversationParticipant :=
  (m.find? (fun kv => kv.1 = urn)).map Prod.snd

/-- The declared participant references of one conversation entity: bare
strings pass through, objects (arrays included — `typeof` calls them
objects) go through `entityUrn ?? *miniProfile`, everything else maps
to `""`. -/
def participantUrnsOf (conv : JsVal) : List String :=
  match jsGet conv "participants" with
  | .arr ps => ps.map (fun p =>
      match p with
      | .str s => s
      | .obj _ => str (jsOr (jsGet p "entityUrn") (jsGet p "*miniProfile"))
      | .arr _ => str (jsOr (jsGet p "entityUrn") (jsGet p "*miniProfile"))
      | _ => "")
  | _ => []

def isConversationEntity (item : JsVal) : Bool :=
  typeIncl (jsGet item "$type") "Conversation" || typeIncl (jsGet item "entityUrn") "conversation"

def convEntities (data : VoyagerResponse) : List JsVal :=
  (includedOf data).filter isConversationEntity

/-- `parseConversations` of `src/lib/client.ts`. -/
def parseConversations (data : VoyagerResponse) : List Conversation :=
  let miniProfiles := miniProfilesMap (includedOf data)
  (convEntities data).filterMap (fun conv =>
    let conversationId := lastUrnSegment (str (jsGet conv "entityUrn"))
    if conversationId = "" then none
    else some
      { conversationId := conversationId
        entityUrn := str (jsGet conv "entityUrn")
        lastActivityAt := num (jsGet conv "lastActivityAt")
        read := jsTruthy (jsGet conv "read")
        participants := (participantUrnsOf conv).filterMap (mapGetParticipant miniProfiles)
        lastMessage := none })

/-- `parseMessages` of `src/lib/client.ts`. -/
def parseMessages (data : VoyagerResponse) (conversationId : String) : List Message :=
  (((includedOf data).filter (fun item =>
      typeIncl (jsGet item "$type") "MessageEvent" || typeIncl (jsGet item "$type") "Event" ||
        jsTruthy (jsGet (jsGet item "body") "text"))).map
    (fun item =>
      let fromObj := jsGet item "from"
      let participant := jsGet fromObj "miniProfile"
      { messageId := lastUrnSegment (str (jsGet item "entityUrn"))
        entityUrn := str (jsGet item "entityUrn")
        senderName :=
          if jsTruthy participant then
            jsTrim (jsToString (jsOr (jsGet participant "firstName") (.str "")) ++ " " ++
              jsToString (jsOr (jsGet participant "lastName") (.str "")))
          else str (jsGet item "senderName")
        senderUrn := str (jsOr (jsGet fromObj "entityUrn") (jsGet participant "entityUrn"))
        text := str (jsOr (jsGet (jsGet item "body") "text")
          (jsOr (jsGet (jsGet (jsGet item "eventContent") "attributedBody") "text")
            (jsGet item "body")))
        createdAt := num (jsGet item "createdAt")
        conversationId := conversationId })).filter
    (fun m => m.text ≠ "")

/-- `parseNotifications` of `src/lib/client.ts`. -/
def parseNotifications (data : VoyagerResponse) : List Notification :=
  (((includedOf data).filter (fun item =>
      typeIncl (jsGet item "$type") "Notification" || typeIncl (jsGet item "$type") "Card")).map
    (fun item =>
      { id := lastUrnSegment (str (jsGet item "entityUrn"))
        entityUrn := str (jsGet item "entityUrn")
        headline := str (jsOr (jsGet (jsGet item "headline") "text") (jsGet item "headline"))
        subHeadline := str (jsOr (jsGet (jsGet item "subHeadline") "text") (jsGet item "subHeadline"))
        additionalContent := str (jsOr (jsGet (jsGet item "additionalContent") "text")
          (jsGet item "additionalContent"))
        createdAt := num (jsOr (jsGet item "publishedAt") (jsGet item "createdAt"))
        read := jsTruthy (jsGet item "read")
        actionUrl := str (jsOr (jsGet item "navigationUrl") (jsGet item "actionUrl")) })).filter
    (fun n => n.headline ≠ "")

/-- `mapJobEntity` of `src/lib/client.ts` (`split(":").pop()` is never
`undefined`, so the `?? str(item.id)` fallback is kept but unreachable). -/
def mapJobEntity (item : JsVal) : Job :=
  let idFromUrn := (jsSplitColon (str (jsGet item "entityUrn"))).getLast?
  { id := idFromUrn.getD (str (jsGet item "id"))
    entityUrn := str (jsGet item "entityUrn")
    title := str (jsGet item "title")
    companyName := str (jsOr (jsGet (jsGet (jsGet item "companyDetails") "company") "name")
      (jsGet item "companyName"))
    companyUrl := str (jsGet (jsGet (jsGet item "companyDetails") "company") "url")
    locationName := str (jsOr (jsGet item "formattedLocation") (jsGet item "locationName"))
    description := str (jsOr (jsGet (jsGet item "description") "text") (jsGet item "description"))
    listedAt := num (jsGet item "listedAt")
    expireAt := num (jsGet item "expireAt")
    workRemoteAllowed := jsTruthy (jsGet item "workRemoteAllowed")
    applicantCount := num (jsGet item "applicantCount")
    seniorityLevel := str (jsGet item "formattedExperienceLevel")
    employmentType := str (jsOr (jsGet item "formattedEmploymentStatus") (jsGet item "employmentType"))
    jobFunctions := match jsGet item "jobFunctions" with
      | .arr xs => xs.map jsToString
      | _ => []
    industries := match jsGet item "industries" with
      | .arr xs => xs.map jsToString
      | _ => []
    jobUrl := "https://www.linkedin.com/jobs/view/" ++ idFromUrn.getD (str (jsGet item "id")) }

/-- `parseJobs` of `src/lib/client.ts`. -/
def parseJobs (data : VoyagerResponse) : List Job :=
  (((includedOf data).filter (fun item =>
      typeIncl (jsGet item "$type") "Job" || jsTruthy (jsGet item "title"))).map
    mapJobEntity).filter (fun j => j.title ≠ "")

/-- `parseProfileViews` of `src/lib/client.ts`. -/
def parseProfileViews (data : VoyagerResponse) : List ProfileView :=
  ((includedOf data).filter (fun item =>
    typeIncl (jsGet item "$type") "Viewer" || typeIncl (jsGet item "$type") "WvmpCard")).map
    (fun item =>
      let viewer := jsGet item "viewer"
      { viewerName := str (jsOr (jsGet viewer "name") (jsGet item "name"))
        viewerHeadline := str (jsOr (jsGet viewer "headline") (jsGet item "headline"))
        viewerProfileUrl := str (jsOr (jsGet viewer "navigationUrl") (jsGet item "navigationUrl"))
        viewedAt := num (jsOr (jsGet item "viewedAt") (jsGet item "createdAt"))
        isAnonymous := jsTruthy (jsOr (jsGet item "isAnonymous") (.bool (jsFalsy viewer))) })

/-! ## General helper lemmas -/

theorem charsStartWith_self_append (xs ys : List Char) : charsStartWith xs (xs ++ ys) = true := by
  induction xs with
  | nil => rfl
  | cons a as ih => simp [charsStartWith, ih]

theorem charsContain_append (pre sub post : List Char) :
    charsContain sub (pre ++ (sub ++ post)) = true := by
  induction pre with
  | nil =>
    cases sub with
    | nil => cases post <;> simp [charsContain, charsStartWith]
    | cons c cs =>
      have h := charsStartWith_self_append (c :: cs) post
      simp [charsContain, List.cons_append] at h ⊢
      exact Or.inl h
  | cons c cs ih => simp [charsContain, ih]

theorem strIncludes_of_append (a sub b : String) :
    strIncludes (a ++ (sub ++ b)) sub = true := by
  have h : (a ++ (sub ++ b)).toList = a.toList ++ (sub.toList ++ b.toList) := rfl
  simp [strIncludes, h, charsContain_append]

theorem joinWith_cons2 (sep a b : String) (rest : List String) :
    ∃ post, joinWith sep (a :: b :: rest) = (a ++ sep) ++ (b ++ post) := by
  cases rest with
  | nil =>
    refine ⟨"", ?_⟩
    show a ++ sep ++ joinWith sep [b] = _
    simp [joinWith, String.append_assoc]
  | cons r rs =>
    refine ⟨sep ++ joinWith sep (r :: rs), ?_⟩
    show a ++ sep ++ joinWith sep (b :: r :: rs) = _
    show a ++ sep ++ (b ++ sep ++ joinWith sep (r :: rs)) = _
    simp [String.append_assoc]

/-! Step lemmas for the retry loop. -/

theorem withRetryGo_ok {α : Type} {fn : Nat → Except Err α} {maxDelay multiplier : Nat}
    {remaining attempt delay : Nat} {v : α} (h : fn attempt = .ok v) :
    withRetryGo fn maxDelay multiplier remaining attempt delay = ⟨.ok v, attempt + 1, []⟩ := by
  unfold withRetryGo
  rw [h]

theorem withRetryGo_nonretry {α : Type} {fn : Nat → Except Err α} {maxDelay multiplier : Nat}
    {remaining attempt delay : Nat} {e : Err} (h : fn attempt = .error e)
    (hr : isRetryable e = false) :
    withRetryGo fn maxDelay multiplier remaining attempt delay = ⟨.error e, attempt + 1, []⟩ := by
  unfold withRetryGo
  rw [h]
  simp [hr]

theorem withRetryGo_exhausted {α : Type} {fn : Nat → Except Err α} {maxDelay multiplier : Nat}
    {attempt delay : Nat} {e : Err} (h : fn attempt = .error e)
    (hr : isRetryable e = true) :
    withRetryGo fn maxDelay multiplier 0 attempt delay = ⟨.error e, attempt + 1, []⟩ := by
  unfold withRetryGo
  rw [h]
  simp [hr]

theorem withRetryGo_step {α : Type} {fn : Nat → Except Err α} {maxDelay multiplier : Nat}
    {r attempt delay : Nat} {e : Err} (h : fn attempt = .error e)
    (hr : isRetryable e = true) :
    withRetryGo fn maxDelay multiplier (r + 1) attempt delay =
      ⟨(withRetryGo fn maxDelay multiplier r (attempt + 1)
          ((if e.cls = ErrClass.rateLimit then e.retryAfter * 1000 else delay) * multiplier)).result,
        (withRetryGo fn maxDelay multiplier r (attempt + 1)
          ((if e.cls = ErrClass.rateLimit then e.retryAfter * 1000 else delay) * multiplier)).attempts,
        min (if e.cls = ErrClass.rateLimit then e.retryAfter * 1000 else delay) maxDelay ::
          (withRetryGo fn maxDelay multiplier r (attempt + 1)
            ((if e.cls = ErrClass.rateLimit then e.retryAfter * 1000 else delay) * multiplier)).waits⟩ := by
  conv_lhs => unfold withRetryGo
  rw [h]
  simp only [hr, if_true]

theorem withRetryGo_attempts_le {α : Type} (fn : Nat → Except Err α) (maxDelay multiplier : Nat) :
    ∀ (remaining attempt delay : Nat),
      (withRetryGo fn maxDelay multiplier remaining attempt delay).attempts ≤ attempt + remaining + 1 := by
  intro remaining
  induction remaining with
  | zero =>
    intro attempt delay
    cases h : fn attempt with
    | ok v => rw [withRetryGo_ok h]
    | error e =>
      cases hr : isRetryable e with
      | false => rw [withRetryGo_nonretry h hr]
      | true => rw [withRetryGo_exhausted h hr]
  | succ r ih =>
    intro attempt delay
    cases h : fn attempt with
    | ok v => rw [withRetryGo_ok h]; dsimp only; omega
    | error e =>
      cases hr : isRetryable e with
      | false => rw [withRetryGo_nonretry h hr]; dsimp only; omega
      | true =>
        rw [withRetryGo_step h hr]
        have := ih (attempt + 1)
          ((if e.cls = ErrClass.rateLimit then e.retryAfter * 1000 else delay) * multiplier)
        dsimp only at this ⊢
        omega

theorem withRetryGo_all_fail {α : Type} (fn : Nat → Except Err α) (maxDelay multiplier : Nat)
    (err : Nat → Err) :
    ∀ (remaining attempt delay : Nat),
      (∀ i, i ≤ remaining → fn (attempt + i) = .error (err (attempt + i)) ∧
        isRetryable (err (attempt + i)) = true) →
      (withRetryGo fn maxDelay multiplier remaining attempt delay).attempts = attempt + remaining + 1 ∧
      (withRetryGo fn maxDelay multiplier remaining attempt delay).result =
        .error (err (attempt + remaining)) := by
  intro remaining
  induction remaining with
  | zero =>
    intro attempt delay h
    obtain ⟨h0, hr⟩ := h 0 (Nat.le_refl 0)
    rw [Nat.add_zero] at h0 hr ⊢
    rw [withRetryGo_exhausted h0 hr]
    exact ⟨rfl, rfl⟩
  | succ r ih =>
    intro attempt delay h
    obtain ⟨h0, hr⟩ := h 0 (Nat.zero_le _)
    rw [Nat.add_zero] at h0 hr
    have key := ih (attempt + 1)
      ((if (err attempt).cls = ErrClass.rateLimit then (err attempt).retryAfter * 1000 else delay) * multiplier)
      (by
        intro i hi
        have hh := h (i + 1) (by omega)
        rw [show attempt + (i + 1) = attempt + 1 + i from by omega] at hh
        exact hh)
    rw [withRetryGo_step h0 hr]
    refine ⟨?_, ?_⟩
    · show (withRetryGo fn maxDelay multiplier r (attempt + 1) _).attempts = _
      rw [key.1]; omega
    · show (withRetryGo fn maxDelay multiplier r (attempt + 1) _).result = _
      rw [key.2, show attempt + 1 + r = attempt + (r + 1) from by omega]

theorem withRetry_fail_then_ok {α : Type} (fn : Nat → Except Err α) (o : RetryOptions) (e : Err) (v : α)
    (h0 : fn 0 = .error e) (hr : isRetryable e = true) (h1 : fn 1 = .ok v) (hm : 1 ≤ o.maxRetries) :
    (withRetry fn o).result = .ok v ∧ (withRetry fn o).attempts = 2 := by
  obtain ⟨r, hr'⟩ : ∃ r, o.maxRetries = r + 1 := ⟨o.maxRetries - 1, by omega⟩
  unfold withRetry
  rw [hr', withRetryGo_step h0 hr, withRetryGo_ok h1]
  exact ⟨rfl, rfl⟩

/-! Lemmas about the conversation-participant lookup map. -/

theorem miniProfilesMap_foldl_append (included : List JsVal)
    (m : List (String × ConversationParticipant)) :
    included.foldl (fun m item =>
      if isProfileStub item then (str (jsGet item "entityUrn"), participantOf item) :: m else m) m =
    miniProfilesMap included ++ m := by
  induction included generalizing m with
  | nil => simp [miniProfilesMap]
  | cons item rest ih =>
    rw [miniProfilesMap]
    simp only [List.foldl_cons]
    rw [ih, ih]
    by_cases h : isProfileStub item
    · simp [h]
    · simp [h]

theorem miniProfilesMap_cons (item : JsVal) (rest : List JsVal) :
    miniProfilesMap (item :: rest) =
      miniProfilesMap rest ++
        (if isProfileStub item then [(str (jsGet item "entityUrn"), participantOf item)] else []) := by
  rw [miniProfilesMap]
  simp only [List.foldl_cons]
  rw [miniProfilesMap_foldl_append]

theorem mapGetParticipant_sound (included : List JsVal) (urn : String)
    (part : ConversationParticipant)
    (h : mapGetParticipant (miniProfilesMap included) urn = some part) :
    ∃ item, item ∈ included ∧ isProfileStub item = true ∧
      str (jsGet item "entityUrn") = urn ∧ part = participantOf item := by
  induction included with
  | nil => simp [miniProfilesMap, mapGetParticipant] at h
  | cons item rest ih =>
    rw [miniProfilesMap_cons] at h
    rw [mapGetParticipant, List.find?_append] at h
    cases hfind : (miniProfilesMap rest).find? (fun kv => kv.1 = urn) with
    | some kv =>
      rw [hfind] at h
      simp only [Option.or] at h
      obtain ⟨item', hmem, hstub, hurn, hpart⟩ := ih (by
        rw [mapGetParticipant, hfind]
        simpa using h)
      exact ⟨item', List.mem_cons_of_mem _ hmem, hstub, hurn, hpart⟩
    | none =>
      rw [hfind] at h
      simp only [Option.or] at h
      by_cases hstub : isProfileStub item
      · simp only [hstub, if_true] at h
        rw [List.find?] at h
        by_cases hkey : str (jsGet item "entityUrn") = urn
        · simp [hkey] at h
          exact ⟨item, List.mem_cons_self _ _, hstub, hkey, h.symm⟩
        · simp [hkey] at h
      · simp [hstub] at h

theorem mapGetParticipant_complete (included : List JsVal) (urn : String)
    (h : ∀ item, item ∈ included → isProfileStub item = true →
      str (jsGet item "entityUrn") ≠ urn) :
    mapGetParticipant (miniProfilesMap included) urn = none := by
  induction included with
  | nil => simp [miniProfilesMap, mapGetParticipant]
  | cons item rest ih =>
    rw [miniProfilesMap_cons, mapGetParticipant, List.find?_append]
    have hrest : (miniProfilesMap rest).find? (fun kv => kv.1 = urn) = none := by
      have := ih (fun it hm hs => h it (List.mem_cons_of_mem _ hm) hs)
      rw [mapGetParticipant] at this
      simpa using this
    rw [hrest]
    simp only [Option.or]
    by_cases hstub : isProfileStub item
    · simp only [hstub, if_true]
      rw [List.find?]
      have hkey := h item (List.mem_cons_self _ _) hstub
      simp [hkey]
    · simp [hstub]

/-! ## Claim theorems -/

/-- C1 (counterexample): the claim says every list-producing parser drops an
included item whose primary URN cannot be resolved; but `parseNotifications`
keeps an item that has a headline and no `entityUrn`, emitting a record with
a blank identifier. -/
theorem C1_counterexample :
    parseNotifications ⟨.obj [], some [.obj [("$type", .str "Notification"), ("headline", .str "hi")]], none⟩ =
      [{ id := "", entityUrn := "", headline := "hi", subHeadline := "", additionalContent := "",
         createdAt := 0, read := false, actionUrl := "" }] := by decide

/-- C1 (amended): an envelope whose `included` array is empty yields the
empty list for every list-producing parser; items lacking a resolvable
primary URN are dropped by the feed-update, invitation and conversation
parsers, while the remaining list parsers drop by their own
minimum-validity field (connections: `publicIdentifier`; search: title;
messages: text; notifications: headline; jobs: title) and profile views
apply no validity bar. -/
theorem C1_list_parsers_amended :
    (∀ (d : JsVal) (p : Option PagingInfo) (ty cid : String),
      parseFeedUpdates ⟨d, some [], p⟩ = [] ∧
      (parseSearchResults ⟨d, some [], p⟩ ty).items = [] ∧
      parseConnections ⟨d, some [], p⟩ = [] ∧
      parseInvitations ⟨d, some [], p⟩ = [] ∧
      parseConversations ⟨d, some [], p⟩ = [] ∧
      parseMessages ⟨d, some [], p⟩ cid = [] ∧
      parseNotifications ⟨d, some [], p⟩ = [] ∧
      parseJobs ⟨d, some [], p⟩ = [] ∧
      parseProfileViews ⟨d, some [], p⟩ = []) ∧
    (∀ data u, u ∈ parseFeedUpdates data → u.urn ≠ "") ∧
    (∀ data i, i ∈ parseInvitations data → i.entityUrn ≠ "") ∧
    (∀ data c, c ∈ parseConversations data → c.conversationId ≠ "") ∧
    (∀ data c, c ∈ parseConnections data → c.publicIdentifier ≠ "") ∧
    (∀ data cid m, m ∈ parseMessages data cid → m.text ≠ "") ∧
    (∀ data n, n ∈ parseNotifications data → n.headline ≠ "") ∧
    (∀ data j, j ∈ parseJobs data → j.title ≠ "") ∧
    (∀ data ty s, s ∈ (parseSearchResults data ty).items → s.title ≠ "") := by
  refine ⟨?_, ?_, ?_, ?_, ?_, ?_, ?_, ?_, ?_⟩
  · intro d p ty cid
    exact ⟨rfl, rfl, rfl, rfl, rfl, rfl, rfl, rfl, rfl⟩
  · intro data u hu
    rw [parseFeedUpdates, List.mem_filterMap] at hu
    obtain ⟨item, _, hf⟩ := hu
    split at hf
    · simp at hf
    · dsimp only at hf
      split at hf
      · simp at hf
      · rename_i hurn
        obtain rfl := (Option.some.inj hf)
        simpa using hurn
  · intro data i hi
    exact of_decide_eq_true (List.mem_filter.mp hi).2
  · intro data c hc
    rw [parseConversations, List.mem_filterMap] at hc
    obtain ⟨conv, _, hf⟩ := hc
    dsimp only at hf
    split at hf
    · simp at hf
    · rename_i hcid
      obtain rfl := Option.some.inj hf
      simpa using hcid
  · intro data c hc
    exact of_decide_eq_true (List.mem_filter.mp hc).2
  · intro data cid m hm
    exact of_decide_eq_true (List.mem_filter.mp hm).2
  · intro data n hn
    exact of_decide_eq_true (List.mem_filter.mp hn).2
  · intro data j hj
    exact of_decide_eq_true (List.mem_filter.mp hj).2
  · intro data ty s hs
    rw [parseSearchResults] at hs
    rw [List.mem_filterMap] at hs
    obtain ⟨item, _, hf⟩ := hs
    dsimp only at hf
    split at hf
    · simp at hf
    · rename_i htitle
      obtain rfl := Option.some.inj hf
      simpa using htitle

/-- C1 (witness): the amended theorem applied to a concrete empty envelope
and to a concrete feed envelope with one URN-carrying update. -/
theorem C1_list_parsers_amended_witness :
    parseConversations ⟨.obj [], some [], none⟩ = [] ∧
    ("urn:li:activity:9" : String) ≠ "" := by
  constructor
  · exact (C1_list_parsers_amended.1 (.obj []) none "people" "c").2.2.2.2.1
  · exact C1_list_parsers_amended.2.1
      ⟨.obj [], some [.obj [("$type", .str "xUpdate"), ("entityUrn", .str "urn:li:activity:9")]], none⟩
      { urn := "urn:li:activity:9", authorUrn := "", authorName := "", authorHeadline := "",
        authorProfileUrl := "", text := "", commentary := "", numLikes := 0, numComments := 0,
        numShares := 0, createdAt := 0, reactionTypeCounts := [],
        postUrl := "https://www.linkedin.com/feed/update/urn:li:activity:9" }
      (by decide)

/-- C2: the request executor's status classification — 401 is an
authentication error; 403 is a challenge error exactly when the body
carries a challenge/captcha marker and an access-forbidden authentication
error otherwise; 404 is not-found for "Resource"; 429 is a rate-limit
error carrying the parsed retry-after header or 60; any other non-2xx
status is a generic error carrying the status and the URL; a 2xx response
decodes as JSON when the content type says json and as raw text
otherwise. -/
theorem C2_request_status_classification (url : String) (r : HttpResponse) :
    requestClassify url { r with status := 401 } = .error (AuthenticationError.make none) ∧
    requestClassify url { r with status := 403 } =
      (if strIncludes r.bodyText "challenge" || strIncludes r.bodyText "captcha" then
        .error ChallengeError.make
      else .error (AuthenticationError.make (some "Access forbidden. Your session may be restricted."))) ∧
    requestClassify url { r with status := 404 } = .error (NotFoundError.make "Resource") ∧
    requestClassify url { r with status := 429 } =
      .error (RateLimitError.make (r.retryAfter.getD 60)) ∧
    (r.status ≠ 401 → r.status ≠ 403 → r.status ≠ 404 → r.status ≠ 429 →
      ¬(200 ≤ r.status ∧ r.status < 300) →
      requestClassify url r = .error (LinkedInError.make
        (s!"LinkedIn API error: {r.status} {r.statusText}") (some r.status) (some url))) ∧
    (200 ≤ r.status → r.status < 300 →
      requestClassify url r =
        (if strIncludes (r.contentType.getD "") "json" then .ok (.json r.bodyText)
         else .ok (.text r.bodyText))) := by
  refine ⟨?_, ?_, ?_, ?_, ?_, ?_⟩
  · simp [requestClassify]
  · simp [requestClassify]
  · simp [requestClassify]
  · simp [requestClassify]
  · intro h1 h2 h3 h4 h5
    simp [requestClassify, h1, h2, h3, h4, h5]
  · intro hlo hhi
    have h1 : r.status ≠ 401 := by omega
    have h2 : r.status ≠ 403 := by omega
    have h3 : r.status ≠ 404 := by omega
    have h4 : r.status ≠ 429 := by omega
    simp [requestClassify, h1, h2, h3, h4, hlo, hhi]

/-- C2 (witness): the classification applied to a concrete 500 response and
a concrete JSON 200 response. -/
theorem C2_request_status_classification_witness :
    requestClassify "https://x" ⟨500, "ISE", "", none, none⟩ =
      .error (LinkedInError.make "LinkedIn API error: 500 ISE" (some 500) (some "https://x")) ∧
    requestClassify "https://x" ⟨200, "OK", "{}", none, some "application/json"⟩ = .ok (.json "{}") := by
  constructor
  · have h := (C2_request_status_classification "https://x" ⟨500, "ISE", "", none, none⟩).2.2.2.2.1
      (by decide) (by decide) (by decide) (by decide) (by decide)
    simpa using h
  · have h := (C2_request_status_classification "https://x"
      ⟨200, "OK", "{}", none, some "application/json"⟩).2.2.2.2.2
      (by decide) (by decide)
    rw [h]
    rfl

/-- C3: `withRetry` makes at most `maxRetries + 1` calls; a non-retryable
first failure (such as a 404 `NotFoundError`) is re-thrown after exactly
one attempt with no waiting; when every attempt fails retryably it makes
exactly `maxRetries + 1` attempts and re-throws the last error; a
retryable failure followed by a success returns that success. -/
theorem C3_withRetry_attempt_counts :
    isRetryable (NotFoundError.make "Resource") = false ∧
    isRetryable (RateLimitError.make 1) = true ∧
    (∀ (α : Type) (fn : Nat → Except Err α) (o : RetryOptions),
      (withRetry fn o).attempts ≤ o.maxRetries + 1) ∧
    (∀ (α : Type) (fn : Nat → Except Err α) (o : RetryOptions) (e : Err),
      fn 0 = .error e → isRetryable e = false →
      withRetry fn o = ⟨.error e, 1, []⟩) ∧
    (∀ (α : Type) (fn : Nat → Except Err α) (o : RetryOptions) (err : Nat → Err),
      (∀ i, i ≤ o.maxRetries → fn i = .error (err i) ∧ isRetryable (err i) = true) →
      (withRetry fn o).attempts = o.maxRetries + 1 ∧
        (withRetry fn o).result = .error (err o.maxRetries)) ∧
    (∀ (α : Type) (fn : Nat → Except Err α) (o : RetryOptions) (e : Err) (v : α),
      fn 0 = .error e → isRetryable e = true → fn 1 = .ok v → 1 ≤ o.maxRetries →
      (withRetry fn o).result = .ok v ∧ (withRetry fn o).attempts = 2) := by
  refine ⟨by decide, by decide, ?_, ?_, ?_, ?_⟩
  · intro α fn o
    have := withRetryGo_attempts_le fn o.maxDelay o.multiplier o.maxRetries 0 o.initialDelay
    simpa [withRetry] using this
  · intro α fn o e h0 hnr
    unfold withRetry
    rw [withRetryGo_nonretry h0 hnr]
  · intro α fn o err h
    have := withRetryGo_all_fail fn o.maxDelay o.multiplier err o.maxRetries 0 o.initialDelay
      (by intro i hi; simpa using h i hi)
    simpa [withRetry] using this
  · intro α fn o e v h0 hr h1 hm
    exact withRetry_fail_then_ok fn o e v h0 hr h1 hm

/-- C3 (witness): exactly one attempt for a 404, three attempts for
`maxRetries = 2` with persistent rate limiting, and success on the second
attempt after one retryable failure. -/
theorem C3_withRetry_attempt_counts_witness :
    withRetry (fun _ => (.error (NotFoundError.make "Resource") : Except Err Nat))
        defaultRetryOptions = ⟨.error (NotFoundError.make "Resource"), 1, []⟩ ∧
    (withRetry (fun _ => (.error (RateLimitError.make 1) : Except Err Nat))
      ⟨2, 10, 60000, 2⟩).attempts = 3 ∧
    (withRetry (fun n => if n = 0 then (.error (RateLimitError.make 1) : Except Err Nat) else .ok 7)
      ⟨2, 10, 60000, 2⟩).result = .ok 7 := by
  refine ⟨?_, ?_, ?_⟩
  · exact C3_withRetry_attempt_counts.2.2.2.1 Nat
      (fun _ => .error (NotFoundError.make "Resource"))
      defaultRetryOptions (NotFoundError.make "Resource") rfl (by decide)
  · exact (C3_withRetry_attempt_counts.2.2.2.2.1 Nat
      (fun _ => (.error (RateLimitError.make 1) : Except Err Nat))
      ⟨2, 10, 60000, 2⟩ (fun _ => RateLimitError.make 1)
      (fun i _ => ⟨rfl, by show isRetryable (RateLimitError.make 1) = true; decide⟩)).1
  · exact (C3_withRetry_attempt_counts.2.2.2.2.2 Nat
      (fun n => if n = 0 then (.error (RateLimitError.make 1) : Except Err Nat) else .ok 7)
      ⟨2, 10, 60000, 2⟩ (RateLimitError.make 1) 7 rfl (by decide) rfl (by decide)).1

/-- C4 (counterexample): the claim says a rate-limit error with an explicit
retry-after of `s` seconds makes the next wait exactly `s * 1000`
milliseconds; with `retryAfter = 120` under the default options the wait
is capped at `maxDelay = 60000`, not `120000`. -/
theorem C4_counterexample :
    (withRetry (fun _ => (.error (RateLimitError.make 120) : Except Err Nat))
      defaultRetryOptions).waits.head? = some 60000 ∧ (60000 : Nat) ≠ 120 * 1000 := by
  constructor
  · rfl
  · decide

/-- C4 (amended): after a retryable rate-limit failure with retry-after
`s`, the next wait is `min (s * 1000) maxDelay` (the override is still
capped by `maxDelay`); after any other retryable failure the wait is
`min currentDelay maxDelay` and the current delay is then multiplied by
the multiplier for the following round. -/
theorem C4_backoff_amended {α : Type} (fn : Nat → Except Err α) (o : RetryOptions) (e : Err)
    (h0 : fn 0 = .error e) (hr : isRetryable e = true) (hm : 1 ≤ o.maxRetries) :
    (e.cls = ErrClass.rateLimit →
      (withRetry fn o).waits.head? = some (min (e.retryAfter * 1000) o.maxDelay)) ∧
    (e.cls ≠ ErrClass.rateLimit →
      (withRetry fn o).waits.head? = some (min o.initialDelay o.maxDelay)) ∧
    (∀ e2, e.cls ≠ ErrClass.rateLimit → fn 1 = .error e2 → isRetryable e2 = true →
      e2.cls ≠ ErrClass.rateLimit → 2 ≤ o.maxRetries →
      (withRetry fn o).waits.take 2 =
        [min o.initialDelay o.maxDelay, min (o.initialDelay * o.multiplier) o.maxDelay]) := by
  obtain ⟨r, hrr⟩ : ∃ r, o.maxRetries = r + 1 := ⟨o.maxRetries - 1, by omega⟩
  refine ⟨?_, ?_, ?_⟩
  · intro hcl
    unfold withRetry
    rw [hrr, withRetryGo_step h0 hr]
    simp [hcl]
  · intro hcl
    unfold withRetry
    rw [hrr, withRetryGo_step h0 hr]
    simp [hcl]
  · intro e2 hcl h1 hr2 hcl2 hm2
    obtain ⟨r2, hrr2⟩ : ∃ r2, o.maxRetries = r2 + 2 := ⟨o.maxRetries - 2, by omega⟩
    unfold withRetry
    rw [hrr2, withRetryGo_step h0 hr]
    rw [show r2 + 2 = (r2 + 1) + 1 from rfl] at *
    rw [withRetryGo_step (show fn (0 + 1) = .error e2 from by simpa using h1) hr2]
    simp [hcl, hcl2]

/-- C4 (witness): the amended backoff rule at a rate-limit error with
retry-after 2 (wait 2000 ms) and at a transient network error (waits 1000
then 2000 ms under the defaults). -/
theorem C4_backoff_amended_witness :
    (withRetry (fun _ => (.error (RateLimitError.make 2) : Except Err Nat))
      defaultRetryOptions).waits.head? = some 2000 ∧
    (withRetry (fun _ => (.error (plainError "fetch failed") : Except Err Nat))
      defaultRetryOptions).waits.take 2 = [1000, 2000] := by
  constructor
  · have h := (C4_backoff_amended (fun _ => (.error (RateLimitError.make 2) : Except Err Nat))
      defaultRetryOptions (RateLimitError.make 2) rfl (by decide) (by decide)).1 (by decide)
    simpa using h
  · have h := (C4_backoff_amended (fun _ => (.error (plainError "fetch failed") : Except Err Nat))
      defaultRetryOptions (plainError "fetch failed") rfl (by decide) (by decide)).2.2
      (plainError "fetch failed") (by decide) rfl (by decide) (by decide) (by decide)
    simpa using h

/-- C5: credential resolution follows the fixed priority explicit pair >
environment pair > named account > legacy flat config > browser
extraction; at each tier a pair with an empty or missing field is treated
as absent and resolution falls through, and when no tier yields a
complete pair the browser failure surfaces as an `AuthenticationError`. -/
theorem C5_credential_priority :
    (∀ (env : AuthEnv) (o : AuthOptions) (c : CookieSet),
      o.cookies = some c → c.li_at ≠ "" → c.jsessionid ≠ "" →
      resolveCredentials (some o) env = .ok c) ∧
    (∀ (env : AuthEnv) (o : AuthOptions) (c : CookieSet),
      o.cookies = some c → ¬(c.li_at ≠ "" ∧ c.jsessionid ≠ "") →
      resolveCredentials (some o) env = resolveCredentials (some { o with cookies := none }) env) ∧
    (∀ (options : Option AuthOptions) (env : AuthEnv),
      options.bind AuthOptions.cookies = none →
      optTruthy env.envLiAt = true → optTruthy env.envJsessionid = true →
      resolveCredentials options env =
        .ok ⟨env.envLiAt.getD "", env.envJsessionid.getD "", none, none, none⟩) ∧
    (∀ (options : Option AuthOptions) (env : AuthEnv),
      (optTruthy env.envLiAt && optTruthy env.envJsessionid) = false →
      resolveCredentials options env =
        resolveCredentials options { env with envLiAt := none, envJsessionid := none }) ∧
    (∀ (options : Option AuthOptions) (env : AuthEnv) (name : String)
        (accts : List (String × AccountConfig)) (creds : CookieSet),
      options.bind AuthOptions.cookies = none →
      (optTruthy env.envLiAt && optTruthy env.envJsessionid) = false →
      accountNameOf options env.currentAccount env.config = some name → name ≠ "" →
      env.config.accounts = some accts →
      getAccountCredentials env.config name = some creds →
      resolveCredentials options env = .ok creds) ∧
    (∀ (options : Option AuthOptions) (env : AuthEnv) (name : String)
        (accts : List (String × AccountConfig)) (account : AccountConfig),
      options.bind AuthOptions.cookies = none →
      (optTruthy env.envLiAt && optTruthy env.envJsessionid) = false →
      accountNameOf options env.currentAccount env.config = some name → name ≠ "" →
      env.config.accounts = some accts →
      getAccountCredentials env.config name = none →
      lookupAccount (some accts) name = some account →
      account.cookieSource = none →
      optTruthy env.config.li_at = true → optTruthy env.config.jsessionid = true →
      resolveCredentials options env =
        .ok ⟨env.config.li_at.getD "", env.config.jsessionid.getD "", none, none, none⟩) ∧
    (∀ (options : Option AuthOptions) (env : AuthEnv),
      options.bind AuthOptions.cookies = none →
      (optTruthy env.envLiAt && optTruthy env.envJsessionid) = false →
      (accountNameOf options env.currentAccount env.config = none ∨
        accountNameOf options env.currentAccount env.config = some "" ∨
        env.config.accounts = none) →
      optTruthy env.config.li_at = true → optTruthy env.config.jsessionid = true →
      resolveCredentials options env =
        .ok ⟨env.config.li_at.getD "", env.config.jsessionid.getD "", none, none, none⟩) ∧
    (∀ (options : Option AuthOptions) (env : AuthEnv) (msg : String),
      options.bind AuthOptions.cookies = none →
      (optTruthy env.envLiAt && optTruthy env.envJsessionid) = false →
      (accountNameOf options env.currentAccount env.config = none ∨
        accountNameOf options env.currentAccount env.config = some "" ∨
        env.config.accounts = none) →
      (optTruthy env.config.li_at && optTruthy env.config.jsessionid) = false →
      env.browser ((options.bind AuthOptions.cookieSource).orElse
        (fun _ => env.config.cookieSource)) = .error msg →
      resolveCredentials options env = .error (AuthenticationError.make (some msg))) := by
  refine ⟨?_, ?_, ?_, ?_, ?_, ?_, ?_, ?_⟩
  · intro env o c hc h1 h2
    simp [resolveCredentials, hc, h1, h2]
  · intro env o c hc hnot
    simp only [resolveCredentials, Option.bind, hc]
    rw [if_neg hnot]
    rfl
  · intro options env hc h1 h2
    simp [resolveCredentials, hc, h1, h2]
  · intro options env h
    simp only [resolveCredentials, h]
    rfl
  · intro options env name accts creds hc henv hname hne haccts hcreds
    simp [resolveCredentials, hc, henv, hname, hne, haccts, hcreds]
  · intro options env name accts account hc henv hname hne haccts hcreds hacct hsrc hli hjs
    simp [resolveCredentials, hc, henv, hname, hne, haccts, hcreds, hacct, hsrc, hli, hjs]
  · intro options env hc henv hinert hli hjs
    rcases hinert with h | h | h <;>
      cases hacc : env.config.accounts <;>
        simp [resolveCredentials, hc, henv, h, hacc, hli, hjs]
  · intro options env msg hc henv hinert hlegacy hbrowser
    rcases hinert with h | h | h <;>
      cases hacc : env.config.accounts <;>
        simp [resolveCredentials, hc, henv, h, hacc, hlegacy, hbrowser]

/-- C5 (witness): a complete explicit pair wins over set environment
variables; the environment pair is used when no explicit pair exists; and
with every tier empty the browser failure message surfaces inside an
`AuthenticationError`. -/
theorem C5_credential_priority_witness :
    resolveCredentials
      (some ⟨some ⟨"tok", "sess", none, none, none⟩, none, none⟩)
      ⟨some "e1", some "e2", ⟨none, none, none, none, none⟩, none, fun _ => .error "nope"⟩ =
      .ok ⟨"tok", "sess", none, none, none⟩ ∧
    resolveCredentials none
      ⟨some "e1", some "e2", ⟨none, none, none, none, none⟩, none, fun _ => .error "nope"⟩ =
      .ok ⟨"e1", "e2", none, none, none⟩ ∧
    resolveCredentials none
      ⟨none, none, ⟨none, none, none, none, none⟩, none, fun _ => .error "boom"⟩ =
      .error (AuthenticationError.make (some "boom")) := by
  refine ⟨?_, ?_, ?_⟩
  · exact C5_credential_priority.1 _ _ ⟨"tok", "sess", none, none, none⟩ rfl
      (by decide) (by decide)
  · exact C5_credential_priority.2.2.1 none _ rfl (by decide) (by decide)
  · exact C5_credential_priority.2.2.2.2.2.2.2 none _ "boom" rfl (by decide)
      (Or.inl rfl) (by decide) rfl

/-- C6 (counterexample): the claim says a requested account name that is
not among the configured accounts always fails immediately; but when the
config has no `accounts` table at all, the named-account tier is skipped
and resolution falls through to the legacy pair. -/
theorem C6_counterexample :
    resolveCredentials (some ⟨none, none, some "ghost"⟩)
      ⟨none, none, ⟨some "legacy-token", some "legacy-session", none, none, none⟩, none,
        fun _ => .error "no browser"⟩ =
      .ok ⟨"legacy-token", "legacy-session", none, none, none⟩ := rfl

/-- C6 (amended): when the config declares an accounts table and a
non-empty account name is requested (explicitly, by the ambient current
account or by the config default) but is not among its keys,
`resolveCredentials` fails immediately with an `AuthenticationError`
enumerating the available account names, regardless of what the legacy
or browser tiers hold; when no accounts table exists the named tier is
skipped entirely. -/
theorem C6_account_not_found_amended (options : Option AuthOptions) (env : AuthEnv) (name : String)
    (accts : List (String × AccountConfig))
    (hexp : ∀ c, options.bind AuthOptions.cookies = some c → ¬(c.li_at ≠ "" ∧ c.jsessionid ≠ ""))
    (henv : (optTruthy env.envLiAt && optTruthy env.envJsessionid) = false)
    (hname : accountNameOf options env.currentAccount env.config = some name)
    (hne : name ≠ "")
    (haccts : env.config.accounts = some accts)
    (hnf : lookupAccount (some accts) name = none) :
    resolveCredentials options env =
      .error (AuthenticationError.make (some (accountNotFoundMsg name accts))) := by
  have hga : getAccountCredentials env.config name = none := by
    rw [getAccountCredentials, haccts, hnf]
  cases hoc : options.bind AuthOptions.cookies with
  | none => simp [resolveCredentials, hoc, henv, hname, hne, haccts, hga, hnf]
  | some c =>
    have := hexp c hoc
    simp [resolveCredentials, hoc, this, henv, hname, hne, haccts, hga, hnf]

/-- C6 (witness): requesting account `ghost` when only `alice` is
configured fails with the enumerating error, even though legacy
credentials exist. -/
theorem C6_account_not_found_amended_witness :
    resolveCredentials (some ⟨none, none, some "ghost"⟩)
      ⟨none, none, ⟨some "l1", some "l2", none,
        some [("alice", ⟨none, none, none⟩)], none⟩, none, fun _ => .error "nope"⟩ =
      .error (AuthenticationError.make
        (some "Account \"ghost\" not found. Available accounts: alice")) := by
  have h := C6_account_not_found_amended (some ⟨none, none, some "ghost"⟩)
    ⟨none, none, ⟨some "l1", some "l2", none,
      some [("alice", ⟨none, none, none⟩)], none⟩, none, fun _ => .error "nope"⟩
    "ghost" [("alice", ⟨none, none, none⟩)]
    (fun c h => nomatch h) (by decide) rfl (by decide) rfl (by decide)
  rw [h]
  rfl

/-- C7: `parseProfile` on the envelope with only first name, last name and
public identifier in `data` and an empty `included` yields the fully
defaulted record — names as given, `connectionCount = 0`, empty
experience and education, and every other field its type-correct
default. -/
theorem C7_profile_roundtrip :
    parseProfile ⟨.obj [("firstName", .str "Jane"), ("lastName", .str "Smith"),
        ("publicIdentifier", .str "janesmith")], some [], none⟩ =
      { publicIdentifier := "janesmith", firstName := "Jane", lastName := "Smith",
        headline := "", summary := "", industryName := "", locationName := "",
        geoCountryName := "", profilePictureUrl := "", backgroundPictureUrl := "",
        connectionCount := 0, followerCount := 0, entityUrn := "",
        profileUrl := "https://www.linkedin.com/in/janesmith",
        experience := [], education := [] } := by decide

/-- C8: every participant of every parsed conversation is resolved from
the URN-keyed lookup map over the profile stubs of `included`; a resolved
participant always originates from a stub entity with that URN, and a
participant URN matched by no stub resolves to nothing and is therefore
omitted from the participant list. -/
theorem C8_conversation_participants :
    (∀ data c, c ∈ parseConversations data →
      ∃ conv, conv ∈ convEntities data ∧
        c.participants = (participantUrnsOf conv).filterMap
          (mapGetParticipant (miniProfilesMap (includedOf data)))) ∧
    (∀ included urn part, mapGetParticipant (miniProfilesMap included) urn = some part →
      ∃ item, item ∈ included ∧ isProfileStub item = true ∧
        str (jsGet item "entityUrn") = urn ∧ part = participantOf item) ∧
    (∀ included urn, (∀ item, item ∈ included → isProfileStub item = true →
        str (jsGet item "entityUrn") ≠ urn) →
      mapGetParticipant (miniProfilesMap included) urn = none) := by
  refine ⟨?_, mapGetParticipant_sound, mapGetParticipant_complete⟩
  intro data c hc
  rw [parseConversations] at hc
  dsimp only at hc
  rw [List.mem_filterMap] at hc
  obtain ⟨conv, hmem, hf⟩ := hc
  split at hf
  · simp at hf
  · obtain rfl := Option.some.inj hf
    exact ⟨conv, hmem, rfl⟩

/-- C8 (witness): with one concrete profile stub, an unknown participant
URN resolves to nothing while the stub's URN resolves to its participant
record. -/
theorem C8_conversation_participants_witness :
    mapGetParticipant (miniProfilesMap [.obj [("$type", .str "MiniProfile"),
      ("entityUrn", .str "urn:li:fs_miniProfile:abc"), ("publicIdentifier", .str "al"),
      ("firstName", .str "Al"), ("lastName", .str "B")]]) "urn:li:fs_miniProfile:ghost" = none ∧
    (∃ item, item ∈ [JsVal.obj [("$type", .str "MiniProfile"),
        ("entityUrn", .str "urn:li:fs_miniProfile:abc"), ("publicIdentifier", .str "al"),
        ("firstName", .str "Al"), ("lastName", .str "B")]] ∧ isProfileStub item = true ∧
      str (jsGet item "entityUrn") = "urn:li:fs_miniProfile:abc" ∧
      (⟨"al", "Al", "B", "", ""⟩ : ConversationParticipant) = participantOf item) := by
  constructor
  · exact C8_conversation_participants.2.2 _ "urn:li:fs_miniProfile:ghost" (by decide)
  · exact C8_conversation_participants.2.1 _ "urn:li:fs_miniProfile:abc"
      ⟨"al", "Al", "B", "", ""⟩ (by decide)

/-- C9 (counterexample): the claim says the string coercion falls back to
the empty string for every non-string input without a text wrapper; but
`str` renders a number through `String()`, so `str 42` is `"42"`, not
`""`. -/
theorem C9_counterexample : str (.num 42) = "42" ∧ ("42" : String) ≠ "" := by
  constructor
  · rfl
  · decide

/-- C9 (amended): `str` returns strings unchanged, renders numbers via
`String()`, recursively unwraps the first `text` property of an object,
returns the empty string exactly for `null`/`undefined`, and falls back
to the JS `String()` rendering (booleans, arrays, `"[object Object]"`)
otherwise; `num` returns 0 for `null`/`undefined` and for values whose JS
numeric conversion is `NaN`, and the converted number otherwise (so
`num true = 1`, not 0). -/
theorem C9_coercion_amended :
    (∀ s, str (.str s) = s) ∧
    str .null = "" ∧ str .undefined = "" ∧
    (∀ n, str (.num n) = toString n) ∧
    (∀ v rest, str (.obj (("text", v) :: rest)) = str v) ∧
    (∀ k v fields, k ≠ "text" → str (.obj ((k, v) :: fields)) = str (.obj fields)) ∧
    (∀ fields, strTextField fields = none → str (.obj fields) = "[object Object]") ∧
    (∀ b, str (.bool b) = (if b then "true" else "false")) ∧
    (∀ xs, str (.arr xs) = jsToString (.arr xs)) ∧
    num .null = 0 ∧ num .undefined = 0 ∧
    (∀ v, jsNumber v = none → num v = 0) ∧
    (∀ n, num (.num n) = n) ∧
    (∀ v n, jsNumber v = some n → v ≠ .null → v ≠ .undefined → num v = n) ∧
    num (.bool true) = 1 := by
  refine ⟨fun s => rfl, rfl, rfl, fun n => rfl, ?_, ?_, ?_, fun b => by cases b <;> rfl,
    fun xs => rfl, rfl, rfl, ?_, fun n => rfl, ?_, rfl⟩
  · intro v rest
    simp [str, strTextField]
  · intro k v fields hk
    simp [str, strTextField, hk, jsToString]
  · intro fields h
    simp [str, h, jsToString]
  · intro v h
    cases v <;> simp_all [num]
  · intro v n h h1 h2
    cases v <;> simp_all [num]

/-- C9 (witness): the amended coercions applied at concrete inputs — a
nested text wrapper unwraps, a plain object renders as
`"[object Object]"`, a numeric string converts, a non-numeric string
gives 0. -/
theorem C9_coercion_amended_witness :
    str (.obj [("other", .num 1), ("text", .obj [("text", .str "deep")])]) = "deep" ∧
    str (.obj [("a", .num 1)]) = "[object Object]" ∧
    num (.str "17") = 17 ∧
    num (.str "abc") = 0 := by
  refine ⟨?_, ?_, ?_, ?_⟩
  · rw [C9_coercion_amended.2.2.2.2.2.1 "other" (.num 1)
      [("text", .obj [("text", .str "deep")])] (by decide)]
    rw [C9_coercion_amended.2.2.2.2.1 (.obj [("text", .str "deep")]) []]
    rw [C9_coercion_amended.2.2.2.2.1 (.str "deep") []]
    exact C9_coercion_amended.1 "deep"
  · exact C9_coercion_amended.2.2.2.2.2.2.1 [("a", .num 1)] (by decide)
  · exact C9_coercion_amended.2.2.2.2.2.2.2.2.2.2.2.2.2.1 (.str "17") 17 rfl
      (fun h => nomatch h) (fun h => nomatch h)
  · exact C9_coercion_amended.2.2.2.2.2.2.2.2.2.2.2.1 (.str "abc") rfl

/-- C10: the CSRF token is `ajax:` followed by the quote-stripped
jsessionid, while the cookie header carries the same quote-stripped value
re-wrapped in double quotes as `JSESSIONID="…"`; in particular the quoted
session id `"quoted-session-id"` yields `ajax:quoted-session-id` and
`li_at=token; JSESSIONID="quoted-session-id"`. -/
theorem C10_header_construction (track : String) (cookies : CookieSet) :
    (buildHeaders track cookies).csrfToken = "ajax:" ++ stripQuotes cookies.jsessionid ∧
    (∃ pre post, (buildHeaders track cookies).cookie =
      pre ++ (("JSESSIONID=\"" ++ stripQuotes cookies.jsessionid ++ "\"") ++ post)) ∧
    strIncludes (buildHeaders track cookies).cookie
      ("JSESSIONID=\"" ++ stripQuotes cookies.jsessionid ++ "\"") = true ∧
    (buildHeaders "" ⟨"token", "\"quoted-session-id\"", none, none, none⟩).csrfToken =
      "ajax:quoted-session-id" ∧
    (buildHeaders "" ⟨"token", "\"quoted-session-id\"", none, none, none⟩).cookie =
      "li_at=token; JSESSIONID=\"quoted-session-id\"" := by
  have hshape : ∃ post, (buildHeaders track cookies).cookie =
      (s!"li_at={cookies.li_at}" ++ "; ") ++
      (("JSESSIONID=\"" ++ stripQuotes cookies.jsessionid ++ "\"") ++ post) := by
    show ∃ post, buildCookieString cookies = _
    unfold buildCookieString
    exact joinWith_cons2 "; " _ _ _
  obtain ⟨post, hpost⟩ := hshape
  refine ⟨rfl, ⟨_, post, hpost⟩, ?_, rfl, rfl⟩
  rw [hpost]
  exact strIncludes_of_append _ _ _

end Linked
